import Mathlib

set_option linter.unusedVariables false

/- Shallow embedding of the transactional execution core of the repository:
   src/repositories/initMySql.py (get_db_session, close_database),
   src/decorators/database.py (with_db_session, transactional) and
   src/decorators/retry.py (retry).  Python exceptions are modelled as
   values, side effects (session creation, commit, rollback, close, engine
   disposal, observer calls, sleeps) are recorded in explicit traces, and
   the module-level globals engine/SessionLocal are modelled as a state
   record threaded through the operations. -/

/-- Python exception value: a tag identifying the exception object, plus the
implicit exception-chaining context (PEP 3134): when an exception is raised
while another one is being handled, the handled one is attached as context. -/
inductive PyExc where
  | base : Nat → PyExc
  | withCtx : Nat → PyExc → PyExc
deriving DecidableEq, Repr

/-- The tag of the exception object itself (ignoring any chained context). -/
def PyExc.tag : PyExc → Nat
  | PyExc.base t => t
  | PyExc.withCtx t _ => t

/-- The chained context of an exception, if any. -/
def PyExc.context : PyExc → Option PyExc
  | PyExc.base _ => none
  | PyExc.withCtx _ c => some c

/-- Attach a handled exception as the chained context of a newly raised one,
as Python does when a raise happens inside an except block. -/
def PyExc.setContext : PyExc → PyExc → PyExc
  | PyExc.base t, c => PyExc.withCtx t c
  | PyExc.withCtx t _, c => PyExc.withCtx t c

/-- Observable events of the database layer: session construction by the
session factory (SessionLocal()), the SET TRANSACTION statement issued by the
transactional decorator when an isolation level is given, commit and rollback
calls on a session (with whether the call succeeded), session close (which
checks the borrowed connection back into the pool), and engine disposal. -/
inductive DBEvent where
  | create : Nat → DBEvent
  | execIso : Nat → DBEvent
  | commitCall : Nat → Bool → DBEvent
  | rollbackCall : Nat → Bool → DBEvent
  | close : Nat → DBEvent
  | dispose : DBEvent
deriving DecidableEq, Repr

/-- The session ids of all sessions created in a trace, in creation order. -/
def createdIds (tr : List DBEvent) : List Nat :=
  tr.filterMap fun ev =>
    match ev with
    | DBEvent.create sid => some sid
    | _ => none

/-- Number of commit calls (successful or failing) issued on session sid. -/
def commitCallsOn (sid : Nat) (tr : List DBEvent) : Nat :=
  (tr.filter fun ev =>
    match ev with
    | DBEvent.commitCall s _ => s == sid
    | _ => false).length

/-- Number of rollback calls (successful or failing) issued on session sid. -/
def rollbackCallsOn (sid : Nat) (tr : List DBEvent) : Nat :=
  (tr.filter fun ev =>
    match ev with
    | DBEvent.rollbackCall s _ => s == sid
    | _ => false).length

/-- Number of close calls issued on session sid; session.close() checks the
session's borrowed connection back into the pool. -/
def closeCallsOn (sid : Nat) (tr : List DBEvent) : Nat :=
  (tr.filter fun ev =>
    match ev with
    | DBEvent.close s => s == sid
    | _ => false).length

/-- The module-level mutable state of src/repositories/initMySql.py: whether
the global engine and the global SessionLocal factory are set (not None), and
a counter supplying the identity of the next session object the factory
constructs. -/
structure DBState where
  engineInit : Bool
  sessionLocalInit : Bool
  nextSid : Nat
deriving DecidableEq, Repr

/-- Environment describing how the database reacts to commit and rollback
calls: for a session id and the number of prior calls of that kind on that
session, an exception raised by the call (none means the call succeeds). -/
structure DBEnv where
  commitExc : Nat → Nat → Option PyExc
  rollbackExc : Nat → Nat → Option PyExc

/-- The SQLAlchemyError raised by get_db_session when SessionLocal is None
(the session factory is not initialized / the pool has been disposed). -/
def factoryNotInitExc : PyExc := PyExc.base 100

/-- One session.commit() call: consults the environment, records the event,
and returns the exception the call raised, if any. -/
def doCommit (env : DBEnv) (sid : Nat) (tr : List DBEvent) :
    Option PyExc × List DBEvent :=
  match env.commitExc sid (commitCallsOn sid tr) with
  | none => (none, tr ++ [DBEvent.commitCall sid true])
  | some e => (some e, tr ++ [DBEvent.commitCall sid false])

/-- One session.rollback() call: consults the environment, records the event,
and returns the exception the call raised, if any. -/
def doRollback (env : DBEnv) (sid : Nat) (tr : List DBEvent) :
    Option PyExc × List DBEvent :=
  match env.rollbackExc sid (rollbackCallsOn sid tr) with
  | none => (none, tr ++ [DBEvent.rollbackCall sid true])
  | some e => (some e, tr ++ [DBEvent.rollbackCall sid false])

/-- Embedding of get_db_session (src/repositories/initMySql.py lines 116-139)
used as a context manager around a body.  If SessionLocal is None it raises
SQLAlchemyError; otherwise it constructs a session, runs the body, commits on
normal completion of the body, rolls back and re-raises on any exception
(if the rollback itself raises, that exception propagates with the handled
one attached as context), and always closes the session in a finally block. -/
def get_db_session {α : Type} (env : DBEnv) (st : DBState) (tr : List DBEvent)
    (body : Nat → DBState → List DBEvent →
      Except PyExc α × DBState × List DBEvent) :
    Except PyExc α × DBState × List DBEvent :=
  if st.sessionLocalInit = false then
    (Except.error factoryNotInitExc, st, tr)
  else
    let sid := st.nextSid
    let st1 : DBState := { st with nextSid := sid + 1 }
    match body sid st1 (tr ++ [DBEvent.create sid]) with
    | (Except.ok a, st2, tr2) =>
      match doCommit env sid tr2 with
      | (none, tr3) => (Except.ok a, st2, tr3 ++ [DBEvent.close sid])
      | (some ce, tr3) =>
        match doRollback env sid tr3 with
        | (none, tr4) =>
          (Except.error ce, st2, tr4 ++ [DBEvent.close sid])
        | (some re, tr4) =>
          (Except.error (PyExc.setContext re ce), st2,
            tr4 ++ [DBEvent.close sid])
    | (Except.error e, st2, tr2) =>
      match doRollback env sid tr2 with
      | (none, tr3) => (Except.error e, st2, tr3 ++ [DBEvent.close sid])
      | (some re, tr3) =>
        (Except.error (PyExc.setContext re e), st2,
          tr3 ++ [DBEvent.close sid])

/-- Embedding of running a unit of work directly inside the get_db_session
context manager (with get_db_session() as session: func(session)). -/
def run_unit_of_work {α : Type} (env : DBEnv) (func : Nat → Except PyExc α)
    (st : DBState) (tr : List DBEvent) :
    Except PyExc α × DBState × List DBEvent :=
  get_db_session env st tr (fun sid st1 tr1 => (func sid, st1, tr1))

/-- Embedding of the with_db_session decorator (src/decorators/database.py
lines 16-38): the wrapper opens a get_db_session scope and calls the wrapped
function with the session.  The auto_commit and auto_rollback parameters are
accepted by the decorator and never read anywhere in its body, exactly as in
the source. -/
def with_db_session {α : Type} (auto_commit auto_rollback : Bool)
    (env : DBEnv) (func : Nat → Except PyExc α) (st : DBState)
    (tr : List DBEvent) : Except PyExc α × DBState × List DBEvent :=
  get_db_session env st tr (fun sid st1 tr1 => (func sid, st1, tr1))

/-- Embedding of the transactional decorator (src/decorators/database.py
lines 41-76): inside a get_db_session scope it optionally issues the SET
TRANSACTION ISOLATION LEVEL statement (modelled as an event that always
succeeds), runs the wrapped function, commits on success and returns the
result, or rolls back and re-raises on any exception.  The result then flows
through the enclosing get_db_session context manager, which commits again on
normal exit and rolls back again on an exception. -/
def transactional {α : Type} (env : DBEnv) (isolation_level : Option String)
    (func : Nat → Except PyExc α) (st : DBState) (tr : List DBEvent) :
    Except PyExc α × DBState × List DBEvent :=
  get_db_session env st tr (fun sid st1 tr1 =>
    let tr2 := match isolation_level with
      | some _ => tr1 ++ [DBEvent.execIso sid]
      | none => tr1
    match func sid with
    | Except.ok r =>
      match doCommit env sid tr2 with
      | (none, tr3) => (Except.ok r, st1, tr3)
      | (some ce, tr3) =>
        match doRollback env sid tr3 with
        | (none, tr4) => (Except.error ce, st1, tr4)
        | (some re, tr4) => (Except.error (PyExc.setContext re ce), st1, tr4)
    | Except.error e =>
      match doRollback env sid tr2 with
      | (none, tr3) => (Except.error e, st1, tr3)
      | (some re, tr3) => (Except.error (PyExc.setContext re e), st1, tr3))

/-- Embedding of close_database (src/repositories/initMySql.py lines
154-165): if the engine is set, dispose it; then set both globals to None.
The Python body contains no raising operation, so the embedding is total. -/
def close_database (st : DBState) (tr : List DBEvent) :
    DBState × List DBEvent :=
  let tr1 := if st.engineInit then tr ++ [DBEvent.dispose] else tr
  ({ engineInit := false, sessionLocalInit := false, nextSid := st.nextSid },
    tr1)

/-- Trace of the observable effects of one call to a retry-wrapped function:
how many times the wrapped function was invoked, the (attempt number,
exception) arguments of each on_retry callback invocation, and the durations
passed to time.sleep in order. -/
structure RTrace where
  calls : Nat
  onRetry : List (Nat × PyExc)
  sleeps : List ℚ
deriving DecidableEq, Repr

/-- Result of one call to a retry-wrapped function: a normal return, an
exception propagated from inside the attempt loop, or the raise of
last_exception located after the loop in the source. -/
inductive Outcome (α : Type) where
  | ok : α → Outcome α
  | raised : PyExc → Outcome α
  | postLoopRaise : Option PyExc → Outcome α
deriving DecidableEq, Repr

/-- Whether an outcome is the raise of last_exception after the loop. -/
def Outcome.isPostLoopRaise {α : Type} : Outcome α → Bool
  | Outcome.postLoopRaise _ => true
  | _ => false

/-- Embedding of the attempt loop of the retry decorator
(src/decorators/retry.py lines 37-64).  The wrapped function is an arbitrary
state transformer so that attempts can have effects (such as acquiring fresh
database sessions).  The for loop over range(max_attempts) is driven by a
fuel argument that counts the remaining iterations, with attempt the current
loop index; exhausting the fuel is exactly the loop running to completion,
after which the source raises last_exception.  An exception not matched by
the except clause (retryablePred false) propagates immediately; a matched one
is re-raised on the final attempt, and otherwise the on_retry callback (when
provided) and the backoff sleep are performed before the next iteration. -/
def retryLoop {σ α : Type} (max_attempts : Nat) (retryablePred : PyExc → Bool)
    (hasOnRetry : Bool) (f : σ → Except PyExc α × σ) :
    Nat → Nat → ℚ → ℚ → Option PyExc → RTrace → σ → Outcome α × RTrace × σ
  | _attempt, 0, _cur, _bf, last_exception, rtr, s =>
    (Outcome.postLoopRaise last_exception, rtr, s)
  | attempt, fuel + 1, current_delay, bf, _last, rtr, s =>
    match f s with
    | (Except.ok a, s1) =>
      (Outcome.ok a, { rtr with calls := rtr.calls + 1 }, s1)
    | (Except.error e, s1) =>
      let rtr1 : RTrace := { rtr with calls := rtr.calls + 1 }
      if retryablePred e then
        if attempt = max_attempts - 1 then
          (Outcome.raised e, rtr1, s1)
        else
          let rtr2 : RTrace :=
            if hasOnRetry then
              { rtr1 with onRetry := rtr1.onRetry ++ [(attempt + 1, e)] }
            else rtr1
          let rtr3 : RTrace :=
            { rtr2 with sleeps := rtr2.sleeps ++ [current_delay] }
          retryLoop max_attempts retryablePred hasOnRetry f (attempt + 1) fuel
            (current_delay * bf) bf (some e) rtr3 s1
      else
        (Outcome.raised e, rtr1, s1)

/-- One call to a function wrapped by retry(max_attempts, delay,
backoff_factor, exceptions, on_retry): the loop starts at attempt 0 with
current_delay = delay, last_exception = None and an empty effect trace. -/
def retryRun {σ α : Type} (max_attempts : Nat) (delay backoff_factor : ℚ)
    (retryablePred : PyExc → Bool) (hasOnRetry : Bool)
    (f : σ → Except PyExc α × σ) (s0 : σ) : Outcome α × RTrace × σ :=
  retryLoop max_attempts retryablePred hasOnRetry f 0 max_attempts delay
    backoff_factor none { calls := 0, onRetry := [], sleeps := [] } s0

/-- A unit of work whose behaviour depends only on how many times it has been
invoked so far: the state is the number of completed invocations. -/
def seqAttempts {α : Type} (g : Nat → Except PyExc α) :
    Nat → Except PyExc α × Nat :=
  fun n => (g n, n + 1)

/-- The composition used when a retry decorator wraps a with_db_session
decorated function: each attempt runs the wrapped function inside a fresh
get_db_session scope, threading the database state and event trace. -/
def db_attempt {α : Type} (env : DBEnv) (func : Nat → Except PyExc α) :
    DBState × List DBEvent → Except PyExc α × (DBState × List DBEvent) :=
  fun p =>
    ((with_db_session true true env func p.1 p.2).1,
      ((with_db_session true true env func p.1 p.2).2.1,
        (with_db_session true true env func p.1 p.2).2.2))

/-- A database environment in which every commit and rollback succeeds. -/
def trivialEnv : DBEnv :=
  { commitExc := fun _ _ => none, rollbackExc := fun _ _ => none }

/-- A database environment in which every rollback call raises. -/
def rollbackFailEnv : DBEnv :=
  { commitExc := fun _ _ => none,
    rollbackExc := fun _ _ => some (PyExc.base 2) }

/-- The database state right after successful init_database: engine and
SessionLocal are set, no session constructed yet. -/
def readyState : DBState :=
  { engineInit := true, sessionLocalInit := true, nextSid := 0 }

/-- C3: with max_attempts = 3 and a unit of work that fails with a retryable
error on the first two attempts and succeeds on the third, the retry wrapper
returns the success value after exactly 3 invocations of the unit of work and
exactly 2 invocations of the on_retry observer, sleeping delay before the
second attempt and delay * backoff_factor before the third. -/
theorem retry_two_failures_then_success {σ α : Type}
    (delay backoff_factor : ℚ) (retryablePred : PyExc → Bool)
    (f : σ → Except PyExc α × σ) (s0 s1 s2 s3 : σ) (e1 e2 : PyExc) (a : α)
    (h0 : f s0 = (Except.error e1, s1)) (h1 : f s1 = (Except.error e2, s2))
    (h2 : f s2 = (Except.ok a, s3))
    (hr1 : retryablePred e1 = true) (hr2 : retryablePred e2 = true) :
    retryRun 3 delay backoff_factor retryablePred true f s0 =
      (Outcome.ok a,
        { calls := 3, onRetry := [(1, e1), (2, e2)],
          sleeps := [delay, delay * backoff_factor] }, s3) := by
  simp [retryRun, retryLoop, h0, h1, h2, hr1, hr2]

/-- The behaviour of the concrete unit of work used to witness C3: two
retryable failures, then success. -/
def gC3 : Nat → Except PyExc Nat :=
  fun n =>
    if n = 0 then Except.error (PyExc.base 5)
    else if n = 1 then Except.error (PyExc.base 6)
    else Except.ok 42

/-- C3 witness: the theorem applied to a concrete policy and unit of work. -/
theorem retry_two_failures_then_success_witness :
    retryRun 3 1 2 (fun _ => true) true (seqAttempts gC3) 0 =
      (Outcome.ok 42,
        { calls := 3, onRetry := [(1, PyExc.base 5), (2, PyExc.base 6)],
          sleeps := [(1 : ℚ), 1 * 2] }, 3) :=
  retry_two_failures_then_success 1 2 (fun _ => true) (seqAttempts gC3)
    0 1 2 3 (PyExc.base 5) (PyExc.base 6) 42 rfl rfl rfl rfl rfl

/-- C4: a unit of work whose first invocation raises an error not matched by
the except clause (non-retryable) makes the retry wrapper raise that error
after exactly 1 invocation, with no observer invocation and no sleep,
regardless of max_attempts (at least 1, as required by the retry policy). -/
theorem retry_non_retryable_immediate {σ α : Type}
    (max_attempts : Nat) (delay backoff_factor : ℚ)
    (retryablePred : PyExc → Bool) (hasOnRetry : Bool)
    (f : σ → Except PyExc α × σ) (s0 s1 : σ) (e : PyExc)
    (hmax : 1 ≤ max_attempts)
    (h0 : f s0 = (Except.error e, s1)) (hr : retryablePred e = false) :
    retryRun max_attempts delay backoff_factor retryablePred hasOnRetry f s0 =
      (Outcome.raised e, { calls := 1, onRetry := [], sleeps := [] }, s1) := by
  obtain ⟨k, rfl⟩ : ∃ k, max_attempts = k + 1 := ⟨max_attempts - 1, by omega⟩
  simp [retryRun, retryLoop, h0, hr]

/-- The behaviour of the concrete unit of work used to witness C4: a
non-retryable failure on the first invocation. -/
def gC4 : Nat → Except PyExc Nat := fun _ => Except.error (PyExc.base 9)

/-- C4 witness: the theorem applied to a concrete policy with max_attempts 5
and a classifier that rejects every error. -/
theorem retry_non_retryable_immediate_witness :
    retryRun 5 1 2 (fun _ => false) true (seqAttempts gC4) 0 =
      (Outcome.raised (PyExc.base 9),
        { calls := 1, onRetry := [], sleeps := [] }, 1) :=
  retry_non_retryable_immediate 5 1 2 (fun _ => false) true (seqAttempts gC4)
    0 1 (PyExc.base 9) (by decide) rfl rfl

/-- When every attempt raises a retryable error, the attempt loop ends by
re-raising the error caught on the final iteration; stated for any suffix of
the loop, by induction on the remaining fuel. -/
theorem retryLoop_all_errors {α : Type} (max_attempts : Nat)
    (retryablePred : PyExc → Bool) (hasOnRetry : Bool) (es : Nat → PyExc)
    (hre : ∀ i, i < max_attempts → retryablePred (es i) = true) :
    ∀ fuel attempt (current_delay bf : ℚ) last rtr,
      attempt + fuel = max_attempts → 1 ≤ fuel →
      (retryLoop max_attempts retryablePred hasOnRetry
        (seqAttempts (fun n => (Except.error (es n) : Except PyExc α)))
        attempt fuel current_delay bf last rtr attempt).1 =
        Outcome.raised (es (max_attempts - 1)) := by
  intro fuel
  induction fuel with
  | zero => intro attempt cur bf last rtr hsum h1; omega
  | succ k ih =>
    intro attempt cur bf last rtr hsum h1
    have hlt : attempt < max_attempts := by omega
    by_cases hA : attempt = max_attempts - 1
    · simp [retryLoop, seqAttempts, hre attempt hlt, hA]
    · have hk : 1 ≤ k := by omega
      simp only [retryLoop, seqAttempts, hre attempt hlt, if_true, hA,
        if_false]
      exact ih (attempt + 1) (cur * bf) bf (some (es attempt)) _
        (by omega) hk

/-- C5: when the unit of work raises a retryable error on all max_attempts
invocations, the retry wrapper raises exactly the error observed on the final
attempt, not a synthetic retries-exhausted error. -/
theorem retry_exhausted_raises_last_error {α : Type} (max_attempts : Nat)
    (delay backoff_factor : ℚ) (retryablePred : PyExc → Bool)
    (hasOnRetry : Bool) (es : Nat → PyExc)
    (hmax : 1 ≤ max_attempts)
    (hre : ∀ i, i < max_attempts → retryablePred (es i) = true) :
    (retryRun max_attempts delay backoff_factor retryablePred hasOnRetry
      (seqAttempts (fun n => (Except.error (es n) : Except PyExc α))) 0).1 =
      Outcome.raised (es (max_attempts - 1)) := by
  unfold retryRun
  exact retryLoop_all_errors max_attempts retryablePred hasOnRetry es hre
    max_attempts 0 delay backoff_factor none
    { calls := 0, onRetry := [], sleeps := [] } (by omega) hmax

/-- C5 witness: with max_attempts 2 and errors tagged by attempt index, the
raised error is the one of the final (second) attempt. -/
theorem retry_exhausted_raises_last_error_witness :
    (retryRun 2 1 2 (fun _ => true) true
      (seqAttempts (fun n => (Except.error (PyExc.base n) : Except PyExc Nat)))
      0).1 = Outcome.raised (PyExc.base 1) :=
  retry_exhausted_raises_last_error 2 1 2 (fun _ => true) true
    (fun n => PyExc.base n) (by decide) (fun _ _ => rfl)

/-- For any unit of work, as long as at least one loop iteration remains the
attempt loop never falls through to the raise after the loop: every iteration
either returns, propagates a non-retryable error, re-raises on the final
attempt, or recurses with one more iteration still available. -/
theorem retryLoop_no_postloop {σ α : Type} (max_attempts : Nat)
    (retryablePred : PyExc → Bool) (hasOnRetry : Bool)
    (f : σ → Except PyExc α × σ) :
    ∀ fuel attempt (current_delay bf : ℚ) last rtr s,
      attempt + fuel = max_attempts → 1 ≤ fuel →
      ((retryLoop max_attempts retryablePred hasOnRetry f attempt fuel
        current_delay bf last rtr s).1).isPostLoopRaise = false := by
  intro fuel
  induction fuel with
  | zero => intro attempt cur bf last rtr s hsum h1; omega
  | succ k ih =>
    intro attempt cur bf last rtr s hsum h1
    simp only [retryLoop]
    rcases hf : f s with ⟨r, s1⟩
    cases r with
    | ok a => simp [Outcome.isPostLoopRaise]
    | error e =>
      by_cases hR : retryablePred e
      · by_cases hA : attempt = max_attempts - 1
        · simp [hR, hA, Outcome.isPostLoopRaise]
        · have hk : 1 ≤ k := by omega
          simp only [hR, if_true, hA, if_false]
          exact ih (attempt + 1) (cur * bf) bf (some e) _ s1 (by omega) hk
      · simp [hR, Outcome.isPostLoopRaise]

/-- C10: for every call to the retry wrapper with max_attempts at least 1,
the raise of last_exception after the attempt loop is unreachable: the result
of the call is never that post-loop raise, for any unit of work. -/
theorem retry_postloop_unreachable {σ α : Type} (max_attempts : Nat)
    (delay backoff_factor : ℚ) (retryablePred : PyExc → Bool)
    (hasOnRetry : Bool) (f : σ → Except PyExc α × σ) (s0 : σ)
    (hmax : 1 ≤ max_attempts) :
    ((retryRun max_attempts delay backoff_factor retryablePred hasOnRetry f
      s0).1).isPostLoopRaise = false := by
  unfold retryRun
  exact retryLoop_no_postloop max_attempts retryablePred hasOnRetry f
    max_attempts 0 delay backoff_factor none
    { calls := 0, onRetry := [], sleeps := [] } s0 (by omega) hmax

/-- C10 witness: the theorem applied to a concrete policy and unit of work. -/
theorem retry_postloop_unreachable_witness :
    ((retryRun 1 1 2 (fun _ => true) false
      (seqAttempts (fun _ => (Except.ok 0 : Except PyExc Nat)))
      0).1).isPostLoopRaise = false :=
  retry_postloop_unreachable 1 1 2 (fun _ => true) false
    (seqAttempts (fun _ => Except.ok 0)) 0 (by decide)

/-- C1 counterexample: under the transactional decorator a unit of work that
returns normally gets commit invoked on its session twice, not exactly once:
once by the decorator's own wrapper and once more by the enclosing
get_db_session context manager on normal exit.  The session is closed exactly
once. -/
theorem transactional_double_commit_cex :
    (transactional trivialEnv none
      (fun _ => (Except.ok 42 : Except PyExc Nat)) readyState []).1 =
      Except.ok 42 ∧
    commitCallsOn 0 (transactional trivialEnv none
      (fun _ => (Except.ok 42 : Except PyExc Nat)) readyState []).2.2 = 2 ∧
    ¬ commitCallsOn 0 (transactional trivialEnv none
      (fun _ => (Except.ok 42 : Except PyExc Nat)) readyState []).2.2 = 1 ∧
    closeCallsOn 0 (transactional trivialEnv none
      (fun _ => (Except.ok 42 : Except PyExc Nat)) readyState []).2.2 = 1 :=
  ⟨rfl, rfl, by decide, rfl⟩

/-- C1 (amended): for every unit of work that returns normally under the
transactional decorator (with both commit calls succeeding), the wrapper
returns the unit's result, commit is invoked on the session exactly twice
(once by the decorator's wrapper and once by the enclosing get_db_session
context manager), rollback is never invoked, and the session is closed (the
connection released) exactly once. -/
theorem transactional_success_commits_twice {α : Type}
    (env : DBEnv) (iso : Option String) (func : Nat → Except PyExc α)
    (st : DBState) (a : α)
    (hinit : st.sessionLocalInit = true)
    (hf : func st.nextSid = Except.ok a)
    (hc0 : env.commitExc st.nextSid 0 = none)
    (hc1 : env.commitExc st.nextSid 1 = none) :
    (transactional env iso func st []).1 = Except.ok a ∧
    commitCallsOn st.nextSid (transactional env iso func st []).2.2 = 2 ∧
    rollbackCallsOn st.nextSid (transactional env iso func st []).2.2 = 0 ∧
    closeCallsOn st.nextSid (transactional env iso func st []).2.2 = 1 := by
  cases iso with
  | none =>
    simp [transactional, get_db_session, hinit, hf, doCommit, doRollback,
      commitCallsOn, rollbackCallsOn, closeCallsOn, hc0, hc1]
  | some lvl =>
    simp [transactional, get_db_session, hinit, hf, doCommit, doRollback,
      commitCallsOn, rollbackCallsOn, closeCallsOn, hc0, hc1]

/-- C1 witness: the amended theorem applied to a concrete environment, state
and unit of work. -/
theorem transactional_success_commits_twice_witness :
    (transactional trivialEnv none
      (fun _ => (Except.ok 7 : Except PyExc Nat)) readyState []).1 =
      Except.ok 7 ∧
    commitCallsOn 0 (transactional trivialEnv none
      (fun _ => (Except.ok 7 : Except PyExc Nat)) readyState []).2.2 = 2 ∧
    rollbackCallsOn 0 (transactional trivialEnv none
      (fun _ => (Except.ok 7 : Except PyExc Nat)) readyState []).2.2 = 0 ∧
    closeCallsOn 0 (transactional trivialEnv none
      (fun _ => (Except.ok 7 : Except PyExc Nat)) readyState []).2.2 = 1 :=
  transactional_success_commits_twice trivialEnv none
    (fun _ => Except.ok 7) readyState 7 rfl rfl rfl rfl

/-- C2 counterexample: a unit of work that raises under the transactional
decorator has its exception propagated to the caller completely unchanged
(same exception object, no chained context, no phase information attached),
so the error is not wrapped with context indicating which phase failed. -/
theorem transactional_error_unwrapped_cex :
    (transactional trivialEnv none
      (fun _ => (Except.error (PyExc.base 7) : Except PyExc Nat))
      readyState []).1 = Except.error (PyExc.base 7) ∧
    PyExc.context (PyExc.base 7) = none ∧
    rollbackCallsOn 0 (transactional trivialEnv none
      (fun _ => (Except.error (PyExc.base 7) : Except PyExc Nat))
      readyState []).2.2 = 2 ∧
    closeCallsOn 0 (transactional trivialEnv none
      (fun _ => (Except.error (PyExc.base 7) : Except PyExc Nat))
      readyState []).2.2 = 1 :=
  ⟨rfl, rfl, rfl, rfl⟩

/-- C2 (amended): for every unit of work that raises inside the transactional
scope (with both rollback calls succeeding), rollback is invoked on the
session twice (once by the decorator's wrapper and once by the enclosing
get_db_session context manager), the original error is propagated to the
caller unchanged (phase information appears only in log messages, not on the
error), commit is never invoked, and the session is closed (the connection
released) exactly once on this error path. -/
theorem transactional_error_rolls_back_and_propagates {α : Type}
    (env : DBEnv) (iso : Option String) (func : Nat → Except PyExc α)
    (st : DBState) (e : PyExc)
    (hinit : st.sessionLocalInit = true)
    (hf : func st.nextSid = Except.error e)
    (hr0 : env.rollbackExc st.nextSid 0 = none)
    (hr1 : env.rollbackExc st.nextSid 1 = none) :
    (transactional env iso func st []).1 = Except.error e ∧
    rollbackCallsOn st.nextSid (transactional env iso func st []).2.2 = 2 ∧
    commitCallsOn st.nextSid (transactional env iso func st []).2.2 = 0 ∧
    closeCallsOn st.nextSid (transactional env iso func st []).2.2 = 1 := by
  cases iso with
  | none =>
    simp [transactional, get_db_session, hinit, hf, doCommit, doRollback,
      commitCallsOn, rollbackCallsOn, closeCallsOn, hr0, hr1]
  | some lvl =>
    simp [transactional, get_db_session, hinit, hf, doCommit, doRollback,
      commitCallsOn, rollbackCallsOn, closeCallsOn, hr0, hr1]

/-- C2 witness: the amended theorem applied to a concrete environment, state
and failing unit of work. -/
theorem transactional_error_rolls_back_and_propagates_witness :
    (transactional trivialEnv none
      (fun _ => (Except.error (PyExc.base 8) : Except PyExc Nat))
      readyState []).1 = Except.error (PyExc.base 8) ∧
    rollbackCallsOn 0 (transactional trivialEnv none
      (fun _ => (Except.error (PyExc.base 8) : Except PyExc Nat))
      readyState []).2.2 = 2 ∧
    commitCallsOn 0 (transactional trivialEnv none
      (fun _ => (Except.error (PyExc.base 8) : Except PyExc Nat))
      readyState []).2.2 = 0 ∧
    closeCallsOn 0 (transactional trivialEnv none
      (fun _ => (Except.error (PyExc.base 8) : Except PyExc Nat))
      readyState []).2.2 = 1 :=
  transactional_error_rolls_back_and_propagates trivialEnv none
    (fun _ => Except.error (PyExc.base 8)) readyState (PyExc.base 8)
    rfl rfl rfl rfl

/-- C6 counterexample: when the unit of work raises the exception tagged 1
and the rollback call raises the exception tagged 2, the error surfaced to
the caller is the rollback failure (tag 2) with the original error attached
only as chained context, so the original error does not take precedence as
the raised failure; and the session is still closed, checking the connection
back into the pool rather than discarding it. -/
theorem rollback_failure_precedence_cex :
    (run_unit_of_work rollbackFailEnv
      (fun _ => (Except.error (PyExc.base 1) : Except PyExc Nat))
      readyState []).1 =
      Except.error (PyExc.withCtx 2 (PyExc.base 1)) ∧
    ¬ PyExc.tag (PyExc.withCtx 2 (PyExc.base 1)) = 1 ∧
    closeCallsOn 0 (run_unit_of_work rollbackFailEnv
      (fun _ => (Except.error (PyExc.base 1) : Except PyExc Nat))
      readyState []).2.2 = 1 :=
  ⟨rfl, by decide, rfl⟩

/-- C6 (amended): when the unit of work raises and the subsequent rollback
also raises, both errors are surfaced to the caller through exception
chaining, but with the rollback failure taking precedence as the raised
exception and the original error attached as its context; the session is
still closed in the finally block, so the connection is returned to the pool
rather than discarded. -/
theorem rollback_failure_chains_and_closes {α : Type}
    (env : DBEnv) (func : Nat → Except PyExc α) (st : DBState) (e re : PyExc)
    (hinit : st.sessionLocalInit = true)
    (hf : func st.nextSid = Except.error e)
    (hr0 : env.rollbackExc st.nextSid 0 = some re) :
    (run_unit_of_work env func st []).1 =
      Except.error (PyExc.setContext re e) ∧
    PyExc.context (PyExc.setContext re e) = some e ∧
    PyExc.tag (PyExc.setContext re e) = PyExc.tag re ∧
    closeCallsOn st.nextSid (run_unit_of_work env func st []).2.2 = 1 := by
  refine ⟨?_, ?_, ?_, ?_⟩
  · simp [run_unit_of_work, get_db_session, hinit, hf, doRollback,
      rollbackCallsOn, hr0]
  · cases re <;> rfl
  · cases re <;> rfl
  · simp [run_unit_of_work, get_db_session, hinit, hf, doRollback,
      rollbackCallsOn, closeCallsOn, hr0]

/-- C6 witness: the amended theorem applied to a concrete environment, state
and failing unit of work whose rollback also fails. -/
theorem rollback_failure_chains_and_closes_witness :
    (run_unit_of_work rollbackFailEnv
      (fun _ => (Except.error (PyExc.base 3) : Except PyExc Nat))
      readyState []).1 =
      Except.error (PyExc.setContext (PyExc.base 2) (PyExc.base 3)) ∧
    PyExc.context (PyExc.setContext (PyExc.base 2) (PyExc.base 3)) =
      some (PyExc.base 3) ∧
    PyExc.tag (PyExc.setContext (PyExc.base 2) (PyExc.base 3)) =
      PyExc.tag (PyExc.base 2) ∧
    closeCallsOn 0 (run_unit_of_work rollbackFailEnv
      (fun _ => (Except.error (PyExc.base 3) : Except PyExc Nat))
      readyState []).2.2 = 1 :=
  rollback_failure_chains_and_closes rollbackFailEnv
    (fun _ => Except.error (PyExc.base 3)) readyState (PyExc.base 3)
    (PyExc.base 2) rfl rfl rfl

/-- createdIds distributes over trace concatenation. -/
theorem createdIds_append (l1 l2 : List DBEvent) :
    createdIds (l1 ++ l2) = createdIds l1 ++ createdIds l2 := by
  simp [createdIds]

/-- A commit call records no session creation. -/
theorem createdIds_doCommit (env : DBEnv) (sid : Nat) (tr : List DBEvent) :
    createdIds (doCommit env sid tr).2 = createdIds tr := by
  cases h : env.commitExc sid (commitCallsOn sid tr) <;>
    simp [doCommit, h, createdIds]

/-- A rollback call records no session creation. -/
theorem createdIds_doRollback (env : DBEnv) (sid : Nat) (tr : List DBEvent) :
    createdIds (doRollback env sid tr).2 = createdIds tr := by
  cases h : env.rollbackExc sid (rollbackCallsOn sid tr) <;>
    simp [doRollback, h, createdIds]

/-- A close event records no session creation. -/
theorem createdIds_single_close (sid : Nat) :
    createdIds [DBEvent.close sid] = [] := rfl

/-- When the session factory is available, one pass through the
with_db_session wrapper creates exactly the one session st.nextSid and bumps
the session counter, whatever the unit of work and the database do. -/
theorem with_db_session_createdIds {α : Type} (a b : Bool) (env : DBEnv)
    (func : Nat → Except PyExc α) (st : DBState) (tr : List DBEvent)
    (hinit : st.sessionLocalInit = true) :
    createdIds (with_db_session a b env func st tr).2.2 =
      createdIds tr ++ [st.nextSid] ∧
    (with_db_session a b env func st tr).2.1 =
      { st with nextSid := st.nextSid + 1 } := by
  have hguard : ¬ (st.sessionLocalInit = false) := by simp [hinit]
  unfold with_db_session get_db_session
  rw [if_neg hguard]
  cases hfc : func st.nextSid with
  | ok v =>
    rcases hdc : doCommit env st.nextSid (tr ++ [DBEvent.create st.nextSid])
      with ⟨oc, tr3⟩
    have htr3 : createdIds tr3 = createdIds tr ++ [st.nextSid] := by
      have h2 := createdIds_doCommit env st.nextSid
        (tr ++ [DBEvent.create st.nextSid])
      rw [hdc] at h2
      simpa [createdIds_append, createdIds] using h2
    cases oc with
    | none => simp [hfc, hdc, createdIds_append, createdIds_single_close, htr3]
    | some ce =>
      rcases hdr : doRollback env st.nextSid tr3 with ⟨orb, tr4⟩
      have htr4 : createdIds tr4 = createdIds tr ++ [st.nextSid] := by
        have h3 := createdIds_doRollback env st.nextSid tr3
        rw [hdr] at h3
        rw [h3, htr3]
      cases orb <;>
        simp [hfc, hdc, hdr, createdIds_append, createdIds_single_close, htr4]
  | error e =>
    rcases hdr : doRollback env st.nextSid (tr ++ [DBEvent.create st.nextSid])
      with ⟨orb, tr3⟩
    have htr3 : createdIds tr3 = createdIds tr ++ [st.nextSid] := by
      have h2 := createdIds_doRollback env st.nextSid
        (tr ++ [DBEvent.create st.nextSid])
      rw [hdr] at h2
      simpa [createdIds_append, createdIds] using h2
    cases orb <;>
      simp [hfc, hdr, createdIds_append, createdIds_single_close, htr3]

/-- Invariant tying the database state to the event trace: the sessions
created so far have strictly increasing ids, all below the id the factory
will hand out next. -/
def SidInv (st : DBState) (tr : List DBEvent) : Prop :=
  List.Pairwise (fun x y => x < y) (createdIds tr) ∧
  ∀ x ∈ createdIds tr, x < st.nextSid

/-- One pass through the with_db_session wrapper preserves the session-id
invariant: any session it creates is fresh with respect to the trace. -/
theorem with_db_session_preserves_SidInv {α : Type} (a b : Bool)
    (env : DBEnv) (func : Nat → Except PyExc α) (st : DBState)
    (tr : List DBEvent) (h : SidInv st tr) :
    SidInv (with_db_session a b env func st tr).2.1
      (with_db_session a b env func st tr).2.2 := by
  by_cases hinit : st.sessionLocalInit = false
  · unfold with_db_session get_db_session
    rw [if_pos hinit]
    exact h
  · have hinit' : st.sessionLocalInit = true := by
      revert hinit; cases st.sessionLocalInit <;> simp
    obtain ⟨hc, hstate⟩ :=
      with_db_session_createdIds a b env func st tr hinit'
    constructor
    · rw [hc]
      refine List.pairwise_append.mpr ⟨h.1, by simp, ?_⟩
      intro x hx y hy
      simp only [List.mem_singleton] at hy
      subst hy
      exact h.2 x hx
    · rw [hc, hstate]
      intro x hx
      rcases List.mem_append.mp hx with hx1 | hx2
      · have := h.2 x hx1
        simp only []
        omega
      · simp only [List.mem_singleton] at hx2
        subst hx2
        simp only []
        omega

/-- Any property of the threaded state that each attempt preserves is
preserved by the whole retry loop. -/
theorem retryLoop_preserves {σ α : Type} (P : σ → Prop)
    (max_attempts : Nat) (retryablePred : PyExc → Bool) (hasOnRetry : Bool)
    (f : σ → Except PyExc α × σ)
    (hstep : ∀ s, P s → P (f s).2) :
    ∀ fuel attempt (current_delay bf : ℚ) last rtr s, P s →
      P (retryLoop max_attempts retryablePred hasOnRetry f attempt fuel
        current_delay bf last rtr s).2.2 := by
  intro fuel
  induction fuel with
  | zero => intro attempt cur bf last rtr s hP; simpa [retryLoop] using hP
  | succ k ih =>
    intro attempt cur bf last rtr s hP
    simp only [retryLoop]
    rcases hf : f s with ⟨r, s1⟩
    have hP1 : P s1 := by
      have := hstep s hP
      rwa [hf] at this
    cases r with
    | ok a => simpa using hP1
    | error e =>
      by_cases hR : retryablePred e
      · by_cases hA : attempt = max_attempts - 1
        · simpa [hR, hA] using hP1
        · simp only [hR, if_true, hA, if_false]
          exact ih (attempt + 1) (cur * bf) bf (some e) _ s1 hP1
      · simpa [hR] using hP1

/-- C7: composing the retry wrapper around a with_db_session wrapped unit of
work, every retry attempt constructs a brand-new session: the ids of the
sessions created during the whole call are strictly increasing, so no attempt
ever reuses the session (or its borrowed connection) of a previous attempt. -/
theorem retry_fresh_session_per_attempt {α : Type} (max_attempts : Nat)
    (delay backoff_factor : ℚ) (retryablePred : PyExc → Bool)
    (hasOnRetry : Bool) (env : DBEnv) (func : Nat → Except PyExc α)
    (st0 : DBState) :
    List.Pairwise (fun x y => x < y)
      (createdIds (retryRun max_attempts delay backoff_factor retryablePred
        hasOnRetry (db_attempt env func) (st0, [])).2.2.2) := by
  have key := retryLoop_preserves
    (fun p : DBState × List DBEvent => SidInv p.1 p.2)
    max_attempts retryablePred hasOnRetry (db_attempt env func)
    (fun p hp => with_db_session_preserves_SidInv true true env func p.1 p.2 hp)
    max_attempts 0 delay backoff_factor none
    { calls := 0, onRetry := [], sleeps := [] } (st0, [])
    ⟨by simp [createdIds], by simp [createdIds]⟩
  exact key.1

/-- C8: close_database is idempotent: the second call finds both globals
already cleared, performs nothing further, and (as in the source, whose body
contains no raising statement) returns without an error; after a
close_database every subsequent get_db_session call fails fast with the
factory-not-available SQLAlchemyError before creating any session. -/
theorem close_database_idempotent_fail_fast (st : DBState)
    (tr : List DBEvent) :
    close_database (close_database st tr).1 (close_database st tr).2 =
      close_database st tr ∧
    ∀ (α : Type) (env : DBEnv) (tr2 : List DBEvent)
      (body : Nat → DBState → List DBEvent →
        Except PyExc α × DBState × List DBEvent),
      get_db_session env (close_database st tr).1 tr2 body =
        (Except.error factoryNotInitExc, (close_database st tr).1, tr2) := by
  constructor
  · simp [close_database]
  · intro α env tr2 body
    simp [get_db_session, close_database]

/-- C9: the auto_commit and auto_rollback parameters of the with_db_session
decorator have no effect on behaviour: for every combination of the flags and
every wrapped function, environment, state and trace, the wrapper produces
identical results. -/
theorem with_db_session_flags_no_effect {α : Type} (a b a' b' : Bool)
    (env : DBEnv) (func : Nat → Except PyExc α) (st : DBState)
    (tr : List DBEvent) :
    with_db_session a b env func st tr = with_db_session a' b' env func st tr :=
  rfl
